import Mathlib

/-!
The text generators of create-react-component-folder (componentData.js).

A shallow embedding of `src/lib/data/componentData.js`.  A JavaScript string is
a Lean `String`, a template literal is the concatenation of its pieces in
source order, an array is a `List`, and `Array.prototype.join('')` is
`String.join`.  The module `../utils/stringHelper` that componentData.js
requires is not among the sources: the generators take it as a parameter
(`StringHelper`), and `stringHelper` is a model of it written from the
specification.
-/

set_option maxRecDepth 100000

namespace ComponentData

/-! ## The string helper required by componentData.js -/

/-- The two functions of `../utils/stringHelper` that componentData.js calls.  The
module is not among the sources, so every generator takes it as a parameter. -/
structure StringHelper where
  /-- The identifier normalizer. -/
  componentNameWithoutSpecialCharacter : String → String
  /-- The display-case transform. -/
  capitalizeFirstLetter : String → String

/-- Modelled from the spec: the characters the normalizer of the missing
`stringHelper.js` keeps, "a letter, digit, or underscore". -/
def isIdentifierChar (c : Char) : Bool :=
  c.isAlphanum || c == '_'

/-- Modelled from the spec: the display transform of the missing `stringHelper.js`,
which "uppercases only the first character, preserves everything else verbatim". -/
def capitalizeChars : List Char → List Char
  | [] => []
  | c :: cs => c.toUpper :: cs

/-- Modelled from the spec: the normalizer of the missing `stringHelper.js`.  A
character that is not an identifier character is dropped, and the kept
character that starts the name or follows a dropped one is uppercased, so that
`my-widget` becomes `MyWidget` as the spec has it.  `atStart` says whether the
next kept character starts a word. -/
def normalizeChars : Bool → List Char → List Char
  | _, [] => []
  | atStart, c :: cs =>
    if isIdentifierChar c then
      (if atStart then c.toUpper else c) :: normalizeChars false cs
    else
      normalizeChars true cs

/-- Modelled from the spec: `src/lib/utils/stringHelper.js` (the functions
`componentNameWithoutSpecialCharacter` and `capitalizeFirstLetter`) is missing
from the sources.  The spec says the normalizer "removes/maps every character
that is not a letter, digit, or underscore, and ensures the first character is
uppercase", with `my-widget` normalized to `MyWidget`; and that the display
transform "uppercases only the first character, preserves everything else
verbatim".  Letters are the ASCII letters here. -/
def stringHelper : StringHelper where
  componentNameWithoutSpecialCharacter := fun raw => String.mk (normalizeChars true raw.data)
  capitalizeFirstLetter := fun raw => String.mk (capitalizeChars raw.data)

/-! ## Arrays -/

/-- The loop of `Array.prototype.map`: the callback gets the element and its index. -/
def arrayMapFrom {α β : Type} (f : α → Nat → β) : Nat → List α → List β
  | _, [] => []
  | i, x :: xs => f x i :: arrayMapFrom f (i + 1) xs

/-- `Array.prototype.map` with a callback of two parameters `(element, index)`. -/
def arrayMap {α β : Type} (f : α → Nat → β) (xs : List α) : List β :=
  arrayMapFrom f 0 xs

/-! ## Component files -/

/-- Source function `createReactComponent(componentName)`: the default React component. -/
def createReactComponent (sh : StringHelper) (componentName : String) : String :=
  let name := sh.componentNameWithoutSpecialCharacter componentName
  "\n" ++
  "import React, \x7b Component \x7d from 'react';\n" ++
  "\n" ++
  "class " ++ name ++ " extends Component \x7b\n" ++
  "  render() \x7b\n" ++
  "    return (\n" ++
  "      <React.Fragment>\n" ++
  "        " ++ name ++ "\n" ++
  "      </React.Fragment>\n" ++
  "    );\n" ++
  "  \x7d\n" ++
  "\x7d\n" ++
  "\n" ++
  "export default " ++ name ++ ";\n"

/-- Source function `createReactFunctionalComponent(componentName)`: the React stateless functional component. -/
def createReactFunctionalComponent (sh : StringHelper) (componentName : String) : String :=
  let name := sh.componentNameWithoutSpecialCharacter componentName
  "\n" ++
  "import React from 'react';\n" ++
  "\n" ++
  "const " ++ name ++ "= () => \x7b\n" ++
  "  return (\n" ++
  "    <React.Fragment>\n" ++
  "      " ++ name ++ "\n" ++
  "    </React.Fragment>\n" ++
  "  );\n" ++
  "\x7d\n" ++
  "\n" ++
  "export default " ++ name ++ ";\n"

/-- Source function `createReactNativeComponent(componentName)`: the default React Native component. -/
def createReactNativeComponent (sh : StringHelper) (componentName : String) : String :=
  let name := sh.componentNameWithoutSpecialCharacter componentName
  "\n" ++
  "import React, \x7b Component \x7d from 'react';\n" ++
  "import \x7b View, Text \x7d from 'react-native';\n" ++
  "\n" ++
  "class " ++ name ++ " extends Component \x7b\n" ++
  "  render() \x7b\n" ++
  "    return (\n" ++
  "      <View>\n" ++
  "        <Text>\n" ++
  "          " ++ name ++ "\n" ++
  "        </Text>\n" ++
  "      </View>\n" ++
  "    );\n" ++
  "  \x7d\n" ++
  "\x7d\n" ++
  "\n" ++
  "export default " ++ name ++ ";\n" ++
  "  "

/-- Source function `createTypeScriptReactNativeComponent(componentName)`: the default TypeScript React Native component. -/
def createTypeScriptReactNativeComponent (sh : StringHelper) (componentName : String) : String :=
  let name := sh.componentNameWithoutSpecialCharacter componentName
  "\n" ++
  "import * as React from 'react';\n" ++
  "import \x7b View, Text \x7d from 'react-native';\n" ++
  "\n" ++
  "class " ++ name ++ " extends React.Component<any, any>  \x7b\n" ++
  "  public render() \x7b\n" ++
  "    return (\n" ++
  "      <View>\n" ++
  "        <Text>\n" ++
  "          " ++ name ++ "\n" ++
  "        </Text>\n" ++
  "      </View>\n" ++
  "    );\n" ++
  "  \x7d\n" ++
  "\x7d\n" ++
  "\n" ++
  "export default " ++ name ++ ";\n" ++
  "  "

/-- Source function `createTypeScriptReactComponent(componentName)`: the default TypeScript React component. -/
def createTypeScriptReactComponent (sh : StringHelper) (componentName : String) : String :=
  let name := sh.componentNameWithoutSpecialCharacter componentName
  "\n" ++
  "import * as React from 'react';\n" ++
  "\n" ++
  "class " ++ name ++ " extends React.Component<any, any>  \x7b\n" ++
  "  public render() \x7b\n" ++
  "    return (\n" ++
  "      <React.Fragment>\n" ++
  "        " ++ name ++ "\n" ++
  "      </React.Fragment>\n" ++
  "    );\n" ++
  "  \x7d\n" ++
  "\x7d\n" ++
  "\n" ++
  "export default " ++ name ++ ";\n"

/-- Source function `createReactComponentWithProps(componentName)`: the default React component with prop types. -/
def createReactComponentWithProps (sh : StringHelper) (componentName : String) : String :=
  let name := sh.componentNameWithoutSpecialCharacter componentName
  "\n" ++
  "import React, \x7b PureComponent \x7d from 'react';\n" ++
  "import * as PropTypes from 'prop-types';\n" ++
  "\n" ++
  "class " ++ name ++ " extends PureComponent \x7b\n" ++
  "  static propTypes = \x7b\n" ++
  "    className: PropTypes.string,\n" ++
  "  \x7d;\n" ++
  "\n" ++
  "  static defaultProps = \x7b\n" ++
  "    className: '" ++ name ++ "',\n" ++
  "  \x7d;\n" ++
  "\n" ++
  "  render() \x7b\n" ++
  "    const \x7b className \x7d = this.props;\n" ++
  "    return <span className=\x7bclassName\x7d>" ++ name ++ "</span>;\n" ++
  "  \x7d\n" ++
  "\x7d\n" ++
  "\n" ++
  "export default " ++ name ++ ";\n"

/-- Source function `createReactFunctionalComponentWithProps(componentName)`: the React stateless functional component with prop types. -/
def createReactFunctionalComponentWithProps (sh : StringHelper) (componentName : String) : String :=
  let name := sh.componentNameWithoutSpecialCharacter componentName
  "\n" ++
  "import React from 'react';\n" ++
  "import PropTypes from 'prop-types';\n" ++
  "\n" ++
  "const " ++ name ++ " = () => \x7b\n" ++
  "  return (\n" ++
  "    <React.Fragment>\n" ++
  "      " ++ name ++ "\n" ++
  "    </React.Fragment>\n" ++
  "  );\n" ++
  "\x7d\n" ++
  "\n" ++
  name ++ ".propTypes = \x7b\x7d;\n" ++
  "\n" ++
  "export default " ++ name ++ ";\n"

/-! ## Index files -/

/-- Source function `createIndex(componentName, upperCase)`: the default index file. -/
def createIndex (sh : StringHelper) (componentName : String) (upperCase : Bool) : String :=
  "export \x7b default \x7d from './" ++
    (if upperCase = true then sh.componentNameWithoutSpecialCharacter componentName
     else componentName) ++
    "';"

/-- The callback of the first `map` in `createIndexForFolders`. -/
def folderImport (folderName : String) : String :=
  "import " ++ folderName ++ " from './" ++ folderName ++ "' \n"

/-- The callback of the second `map` in `createIndexForFolders`: the last index
returns the name alone, every other index appends a comma, a space and a line
break.  `folders.length - 1` is computed in the integers, as JavaScript does. -/
def folderExport (folders : List String) (folderName : String) (index : Nat) : String :=
  if (index : Int) = (folders.length : Int) - 1 then folderName
  else folderName ++ ", \n"

/-- Source function `createIndexForFolders(folders)`: an index file that includes all folders. -/
def createIndexForFolders (folders : List String) : String :=
  String.join (folders.map folderImport) ++ "export \x7b\n    " ++
    String.join (arrayMap (folderExport folders) folders) ++ "\n\x7d"

/-- Source function `createReactNativeComponentWithProps(componentName)`: the default React Native component with prop types. -/
def createReactNativeComponentWithProps (sh : StringHelper) (componentName : String) : String :=
  let name := sh.componentNameWithoutSpecialCharacter componentName
  "\n" ++
  "import React, \x7b Component \x7d from 'react';\n" ++
  "import \x7b View, Text \x7d from 'react-native';\n" ++
  "import PropTypes from 'prop-types';\n" ++
  "\n" ++
  "class " ++ name ++ " extends Component \x7b\n" ++
  "  render() \x7b\n" ++
  "    return (\n" ++
  "      <View>\n" ++
  "        <Text>" ++ name ++ "</Text>\n" ++
  "      </View>\n" ++
  "    );\n" ++
  "  \x7d\n" ++
  "\x7d\n" ++
  "\n" ++
  name ++ ".propTypes = \x7b\n" ++
  "\n" ++
  "\x7d;\n" ++
  "\n" ++
  "export default " ++ name ++ ";\n" ++
  "  "

/-! ## Test and story files -/

/-- Source function `createTest(componentName, upperCase, isTypeScript)`: the default
test file for a component. -/
def createTest (sh : StringHelper) (componentName : String) (upperCase isTypeScript : Bool) :
    String :=
  let componentNameUpperCase := sh.componentNameWithoutSpecialCharacter componentName
  "\n" ++
  "import " ++ (if isTypeScript = true then "* as" else "") ++ " React from 'react';\n" ++
  "import \x7b shallow \x7d from 'enzyme';\n" ++
  "\n" ++
  "import " ++ componentNameUpperCase ++ " from './" ++ (if upperCase = true then componentNameUpperCase else componentName) ++ "';\n" ++
  "\n" ++
  "describe('<" ++ componentNameUpperCase ++ " />', () => \x7b\n" ++
  "  it('renders', () => \x7b\n" ++
  "    expect(shallow(<" ++ componentNameUpperCase ++ " />).exists()).toBe(true);\n" ++
  "  \x7d);\n" ++
  "\x7d);\n" ++
  "  "

/-- Source function `createReactComponentStories(componentName, upperCase, isTypeScript)`:
the stories file for a component.  The parameter `upperCase` is not read by the body. -/
def createReactComponentStories (sh : StringHelper) (componentName : String)
    (_upperCase isTypeScript : Bool) : String :=
  let componentNameUpperCase := sh.capitalizeFirstLetter componentName
  let componentNameWithoutSpecialCharacter :=
    sh.componentNameWithoutSpecialCharacter componentName
  "\n" ++
  "import " ++ (if isTypeScript = true then "* as" else "") ++ " React from 'react';\n" ++
  "import \x7b storiesOf \x7d from '@storybook/react'\n" ++
  "\n" ++
  "import " ++ componentNameWithoutSpecialCharacter ++ " from './" ++ componentName ++ "';\n" ++
  "\n" ++
  "storiesOf('" ++ componentNameUpperCase ++ "', module)\n" ++
  "  .add('" ++ componentNameUpperCase ++ "', () => (\n" ++
  "    <React.Fragment>\n" ++
  "      <" ++ componentNameWithoutSpecialCharacter ++ "  />\n" ++
  "    </React.Fragment>\n" ++
  "  ))\n"

/-! ## The component templates that componentData.js exports

componentData.js exports the eight component generators and nothing that picks
one of them from the flags of a request: that selector lives in a caller which
is not among the sources.  The configuration space and the selector below are
modelled from the specification; the generators they select among are the
exported source functions. -/

/-- Modelled from the spec: `framework ∈ {web, native}` of `GenerationConfig`; the
sources have no such type. -/
inductive Framework
  | web
  | native
deriving DecidableEq, Repr

/-- Modelled from the spec: `style ∈ {class, functional}` of `GenerationConfig`; the
sources have no such type. -/
inductive Style
  | classBased
  | functional
deriving DecidableEq, Repr

/-- Modelled from the spec: `language ∈ {plain, typescript}` of `GenerationConfig`;
the sources have no such type. -/
inductive Language
  | plain
  | typescript
deriving DecidableEq, Repr

/-- Modelled from the spec: one combination of the four choices of
`GenerationConfig` on which the missing selector branches for
`fileKind = component`, `(framework, style, language, withProps)`. -/
structure Variant where
  framework : Framework
  style : Style
  language : Language
  withProps : Bool
deriving DecidableEq, Repr

/-- The eight component generators listed in `module.exports`, in that order. -/
inductive ComponentGenerator
  | createReactComponent
  | createReactFunctionalComponent
  | createReactNativeComponent
  | createTypeScriptReactComponent
  | createTypeScriptReactNativeComponent
  | createReactComponentWithProps
  | createReactFunctionalComponentWithProps
  | createReactNativeComponentWithProps
deriving DecidableEq, Repr

/-- Modelled from the spec: the combination under which the missing selector picks
a generator.  componentData.js has no such mapping; each generator is given the
combination that its name and its doc comment in the source describe ("default
React component", "React stateless functional component", "default React Native
component", "default Typescript React component", "default Typescript React
Native component", and the three "with prop types"). -/
def ComponentGenerator.variant : ComponentGenerator → Variant
  | .createReactComponent => ⟨.web, .classBased, .plain, false⟩
  | .createReactFunctionalComponent => ⟨.web, .functional, .plain, false⟩
  | .createReactNativeComponent => ⟨.native, .classBased, .plain, false⟩
  | .createTypeScriptReactComponent => ⟨.web, .classBased, .typescript, false⟩
  | .createTypeScriptReactNativeComponent => ⟨.native, .classBased, .typescript, false⟩
  | .createReactComponentWithProps => ⟨.web, .classBased, .plain, true⟩
  | .createReactFunctionalComponentWithProps => ⟨.web, .functional, .plain, true⟩
  | .createReactNativeComponentWithProps => ⟨.native, .classBased, .plain, true⟩

/-- Calling an exported component generator. -/
def ComponentGenerator.render (sh : StringHelper) : ComponentGenerator → String → String
  | .createReactComponent => ComponentData.createReactComponent sh
  | .createReactFunctionalComponent => ComponentData.createReactFunctionalComponent sh
  | .createReactNativeComponent => ComponentData.createReactNativeComponent sh
  | .createTypeScriptReactComponent => ComponentData.createTypeScriptReactComponent sh
  | .createTypeScriptReactNativeComponent =>
    ComponentData.createTypeScriptReactNativeComponent sh
  | .createReactComponentWithProps => ComponentData.createReactComponentWithProps sh
  | .createReactFunctionalComponentWithProps =>
    ComponentData.createReactFunctionalComponentWithProps sh
  | .createReactNativeComponentWithProps =>
    ComponentData.createReactNativeComponentWithProps sh

/-- The component generators of `module.exports`, in source order. -/
def componentGenerators : List ComponentGenerator :=
  [.createReactComponent, .createReactFunctionalComponent, .createReactNativeComponent,
   .createTypeScriptReactComponent, .createTypeScriptReactNativeComponent,
   .createReactComponentWithProps, .createReactFunctionalComponentWithProps,
   .createReactNativeComponentWithProps]

/-- Modelled from the spec: the templates that match a combination, as the missing
selector would find them among the exported generators ("select exactly one of
a fixed enumeration of template variants"). -/
def templatesFor (v : Variant) : List ComponentGenerator :=
  componentGenerators.filter (fun g => decide (g.variant = v))

/-- Modelled from the spec: the one failure of the renderer, `UnsupportedVariant`. -/
inductive RenderError
  | unsupportedVariant
deriving DecidableEq, Repr

/-- Modelled from the spec: the template selector for `fileKind = component`, which
is missing from the sources.  The spec has "exactly one combination must match
each call" and, for a combination outside the enumerated templates, "the
Renderer fails with an `UnsupportedVariant` condition rather than silently
falling back to a default template". -/
def selectComponentTemplate (v : Variant) : Except RenderError ComponentGenerator :=
  match templatesFor v with
  | [g] => .ok g
  | _ => .error .unsupportedVariant

/-- Modelled from the spec: rendering a component request, the selector above
followed by a call of the selected exported generator. -/
def renderComponent (sh : StringHelper) (v : Variant) (componentName : String) :
    Except RenderError String :=
  match selectComponentTemplate v with
  | .ok g => .ok (g.render sh componentName)
  | .error e => .error e

/-! ## Reading a generated text -/

/-- The text `part` occurs in `text`. -/
def occursIn (part text : String) : Prop :=
  part.data <:+: text.data

instance (part text : String) : Decidable (occursIn part text) := by
  unfold occursIn; infer_instance

/-- The last character of a text, if it has one. -/
def lastChar (text : String) : Option Char :=
  text.data.getLast?

/-- The text `text` ends with `tail`. -/
def endsWith (tail text : String) : Prop :=
  tail.data <:+ text.data

instance (tail text : String) : Decidable (endsWith tail text) := by
  unfold endsWith; infer_instance

/-! ## The class templates with the language-dependent places left open -/

/-- The plain web class template of `createReactComponent` with three places
left open: the React import clause, the class heritage after `extends`, and
the modifier in front of `render()`.  Everything else is the text of
`createReactComponent`. -/
def webClassComponentWith (reactImport heritage renderModifier name : String) : String :=
  "\n" ++
  reactImport ++ " from 'react';\n" ++
  "\n" ++
  "class " ++ name ++ " extends " ++ heritage ++ " \x7b\n" ++
  "  " ++ renderModifier ++ "render() \x7b\n" ++
  "    return (\n" ++
  "      <React.Fragment>\n" ++
  "        " ++ name ++ "\n" ++
  "      </React.Fragment>\n" ++
  "    );\n" ++
  "  \x7d\n" ++
  "\x7d\n" ++
  "\n" ++
  "export default " ++ name ++ ";\n"

/-- The plain React Native class template of `createReactNativeComponent` with
the same three places left open. -/
def nativeClassComponentWith (reactImport heritage renderModifier name : String) : String :=
  "\n" ++
  reactImport ++ " from 'react';\n" ++
  "import \x7b View, Text \x7d from 'react-native';\n" ++
  "\n" ++
  "class " ++ name ++ " extends " ++ heritage ++ " \x7b\n" ++
  "  " ++ renderModifier ++ "render() \x7b\n" ++
  "    return (\n" ++
  "      <View>\n" ++
  "        <Text>\n" ++
  "          " ++ name ++ "\n" ++
  "        </Text>\n" ++
  "      </View>\n" ++
  "    );\n" ++
  "  \x7d\n" ++
  "\x7d\n" ++
  "\n" ++
  "export default " ++ name ++ ";\n" ++
  "  "

/-! ## Lemmas on joining strings -/

theorem join_nil : String.join [] = "" := rfl

theorem join_cons (a : String) (l : List String) :
    String.join (a :: l) = a ++ String.join l := by
  apply String.ext
  simp [String.join_eq, String.data_append]

theorem intercalate_go_append (a b s : String) (l : List String) :
    String.intercalate.go (a ++ b) s l = a ++ String.intercalate.go b s l := by
  induction l generalizing b with
  | nil => simp [String.intercalate.go]
  | cons c l ih =>
    simp only [String.intercalate.go]
    rw [String.append_assoc a b s, String.append_assoc a (b ++ s) c, ih]

theorem intercalate_singleton (s a : String) : String.intercalate s [a] = a := by
  simp [String.intercalate, String.intercalate.go]

theorem intercalate_cons_cons (s a b : String) (l : List String) :
    String.intercalate s (a :: b :: l) = a ++ s ++ String.intercalate s (b :: l) := by
  simp only [String.intercalate, String.intercalate.go]
  rw [String.append_assoc a s b, intercalate_go_append, intercalate_go_append,
    String.append_assoc]

/-- A separated list of names ends with its last name. -/
theorem intercalate_ends_with_last (s : String) :
    ∀ (xs : List String) (hne : xs ≠ []),
      ∃ front : String, String.intercalate s xs = front ++ xs.getLast hne
  | [], hne => absurd rfl hne
  | [x], _ => ⟨"", by simp [intercalate_singleton]⟩
  | x :: y :: ys, _ => by
    obtain ⟨front, hfront⟩ := intercalate_ends_with_last s (y :: ys) (by simp)
    refine ⟨x ++ s ++ front, ?_⟩
    rw [intercalate_cons_cons, hfront, List.getLast_cons_cons]
    simp only [String.append_assoc]

/-- A text that can be cut around `part` contains `part`. -/
theorem occursIn_of_eq {part text : String} (front back : String)
    (h : text = front ++ part ++ back) : occursIn part text := by
  unfold occursIn
  rw [h, String.data_append, String.data_append]
  exact ⟨front.data, back.data, rfl⟩

/-- A text whose last two pieces end with `tail` ends with `tail`. -/
theorem endsWith_append_append {tail : String} (a b c : String)
    (h : endsWith tail (b ++ c)) : endsWith tail (a ++ b ++ c) := by
  unfold endsWith at h ⊢
  rw [String.append_assoc, String.data_append]
  exact h.trans (List.suffix_append _ _)

/-- The last character of a text is the last character of its last piece. -/
theorem lastChar_append (a b : String) (c : Char) (h : lastChar b = some c) :
    lastChar (a ++ b) = some c := by
  unfold lastChar at h ⊢
  rw [String.data_append, List.getLast?_append, h]
  rfl

/-! ## createIndexForFolders -/

/-- The second `map` of `createIndexForFolders`, joined, is the list of names
separated by a comma, a space and a line break. -/
theorem join_folderExport (folders : List String) :
    ∀ (xs : List String) (i : Nat), i + xs.length = folders.length →
      String.join (arrayMapFrom (folderExport folders) i xs) = String.intercalate ", \n" xs
  | [], _, _ => rfl
  | [x], i, h => by
    have hi : (i : Int) = (folders.length : Int) - 1 := by
      simp only [List.length_singleton] at h; omega
    simp [arrayMapFrom, folderExport, hi, join_cons, join_nil, intercalate_singleton]
  | x :: y :: ys, i, h => by
    have hi : ¬ ((i : Int) = (folders.length : Int) - 1) := by
      simp only [List.length_cons] at h; omega
    have ih := join_folderExport folders (y :: ys) (i + 1)
      (by simp only [List.length_cons] at h ⊢; omega)
    rw [arrayMapFrom, join_cons, ih, intercalate_cons_cons]
    simp [folderExport, hi]

/-- The text of `createIndexForFolders` in closed form. -/
theorem createIndexForFolders_eq (folders : List String) :
    createIndexForFolders folders =
      String.join (folders.map folderImport) ++ "export \x7b\n    " ++
        String.intercalate ", \n" folders ++ "\n\x7d" := by
  unfold createIndexForFolders arrayMap
  rw [join_folderExport folders folders 0 (by simp)]

/-- C1, as stated, fails: for the folders alpha, beta, gamma the text with a
space after each line break, `alpha, \n beta, \n gamma`, does not occur in the
output of `createIndexForFolders`. -/
theorem createIndexForFolders_separator_counterexample :
    ¬ occursIn "alpha, \n beta, \n gamma" (createIndexForFolders ["alpha", "beta", "gamma"]) := by
  decide

/-- C1, amended: for every non-empty list of folder names the export block of
`createIndexForFolders` is `export {`, a line break and four spaces, the names
in input order separated by a comma, a space and a line break (nothing after
the line break), then a line break and the closing brace; the text ends with
the last name, a line break and the closing brace, so no comma follows the
last name. -/
theorem createIndexForFolders_export_list (folders : List String) (hne : folders ≠ []) :
    createIndexForFolders folders =
        String.join (folders.map folderImport) ++
          ("export \x7b\n    " ++ String.intercalate ", \n" folders ++ "\n\x7d") ∧
      ∃ front : String,
        createIndexForFolders folders = front ++ folders.getLast hne ++ "\n\x7d" := by
  constructor
  · rw [createIndexForFolders_eq]
    simp only [String.append_assoc]
  · obtain ⟨front, hfront⟩ := intercalate_ends_with_last ", \n" folders hne
    refine ⟨String.join (folders.map folderImport) ++ "export \x7b\n    " ++ front, ?_⟩
    rw [createIndexForFolders_eq, hfront]
    simp only [String.append_assoc]

/-- C1, amended, at the folders alpha, beta, gamma: the export list is
`alpha, \nbeta, \ngamma`, followed by a line break and the closing brace. -/
theorem createIndexForFolders_export_list_witness :
    ["alpha", "beta", "gamma"] ≠ [] ∧
      createIndexForFolders ["alpha", "beta", "gamma"] =
        "import alpha from './alpha' \nimport beta from './beta' \nimport gamma from './gamma' \n" ++
          "export \x7b\n    alpha, \nbeta, \ngamma\n\x7d" :=
  ⟨by decide,
    (createIndexForFolders_export_list ["alpha", "beta", "gamma"] (by decide)).1.trans
      (by decide)⟩

/-- C2: for every list of folder names the text of `createIndexForFolders` starts
with one import statement per name, `import <name> from './<name>'`, in input
order with the names verbatim (each statement followed by a space and a line
break), and the `export {` block follows the last of them at once. -/
theorem createIndexForFolders_imports (folders : List String) :
    ∃ (imports : List String) (exportList : String),
      imports = folders.map (fun name => "import " ++ name ++ " from './" ++ name ++ "'") ∧
      imports.length = folders.length ∧
      createIndexForFolders folders =
        String.join (imports.map (fun statement => statement ++ " \n")) ++
          ("export \x7b" ++ exportList ++ "\x7d") := by
  refine ⟨_, "\n    " ++ String.intercalate ", \n" folders ++ "\n", rfl, by simp, ?_⟩
  rw [createIndexForFolders_eq, List.map_map]
  have hmap : folders.map folderImport =
      folders.map ((fun statement => statement ++ " \n") ∘
        (fun name => "import " ++ name ++ " from './" ++ name ++ "'")) := by
    apply List.map_congr_left
    intro name _
    apply String.ext
    simp [folderImport, String.data_append]
  rw [hmap]
  apply String.ext
  simp [String.data_append]

/-! ## createIndex and createTest -/

/-- C3: `createIndex(name, true)` re-exports from `./` followed by the normalized
identifier of the name, and `createIndex(name, false)` from `./` followed by the
name verbatim, for every string helper; with the normalizer of the
specification the two paths for `button` are `./Button` and `./button`. -/
theorem createIndex_path (sh : StringHelper) (componentName : String) :
    createIndex sh componentName true =
        "export \x7b default \x7d from '" ++
          ("./" ++ sh.componentNameWithoutSpecialCharacter componentName) ++ "';" ∧
      createIndex sh componentName false =
        "export \x7b default \x7d from '" ++ ("./" ++ componentName) ++ "';" ∧
      createIndex stringHelper "button" true = "export \x7b default \x7d from './Button';" ∧
      createIndex stringHelper "button" false = "export \x7b default \x7d from './button';" := by
  refine ⟨?_, ?_, by decide, by decide⟩
  · apply String.ext
    simp [createIndex, String.data_append]
  · apply String.ext
    simp [createIndex, String.data_append]

/-- C4: for every name and both values of `upperCase` and `isTypeScript`, the
path `createTest` imports the component from is the path `createIndex`
re-exports from: `./` and the normalized identifier when `upperCase` is true,
`./` and the raw name otherwise. -/
theorem createTest_imports_from_index_path (sh : StringHelper) (componentName : String)
    (upperCase isTypeScript : Bool) :
    ∃ path back : String,
      path = "./" ++ (if upperCase = true
        then sh.componentNameWithoutSpecialCharacter componentName else componentName) ∧
      createIndex sh componentName upperCase =
        "export \x7b default \x7d from '" ++ path ++ "';" ∧
      createTest sh componentName upperCase isTypeScript =
        "\nimport " ++ (if isTypeScript = true then "* as" else "") ++ " React from 'react';\n" ++
          "import \x7b shallow \x7d from 'enzyme';\n\n" ++
          "import " ++ sh.componentNameWithoutSpecialCharacter componentName ++
          " from '" ++ path ++ "';" ++ back := by
  refine ⟨_, "\n\ndescribe('<" ++ sh.componentNameWithoutSpecialCharacter componentName ++
    " />', () => \x7b\n  it('renders', () => \x7b\n    expect(shallow(<" ++
    sh.componentNameWithoutSpecialCharacter componentName ++
    " />).exists()).toBe(true);\n  \x7d);\n\x7d);\n  ", rfl, ?_, ?_⟩
  · apply String.ext
    simp [createIndex, String.data_append]
  · apply String.ext
    simp [createTest, String.data_append]

/-- C5: for every name and `upperCase`, the TypeScript and the plain test file
are the React import line (`import * as React` against `import  React`)
followed by the same remaining text, and that text holds the component import,
the describe title and the existence assertion. -/
theorem createTest_typescript_changes_import_only (sh : StringHelper)
    (componentName : String) (upperCase : Bool) :
    ∃ rest : String,
      createTest sh componentName upperCase true =
        "\nimport * as React from 'react';\n" ++ rest ∧
      createTest sh componentName upperCase false =
        "\nimport  React from 'react';\n" ++ rest ∧
      occursIn ("import " ++ sh.componentNameWithoutSpecialCharacter componentName ++
        " from './" ++ (if upperCase = true
          then sh.componentNameWithoutSpecialCharacter componentName else componentName) ++
        "';") rest ∧
      occursIn ("describe('<" ++ sh.componentNameWithoutSpecialCharacter componentName ++
        " />'") rest ∧
      occursIn ("expect(shallow(<" ++ sh.componentNameWithoutSpecialCharacter componentName ++
        " />).exists()).toBe(true)") rest := by
  simp only [createTest]
  generalize sh.componentNameWithoutSpecialCharacter componentName = name
  generalize (if upperCase = true then name else componentName) = file
  refine ⟨"import \x7b shallow \x7d from 'enzyme';\n\nimport " ++ name ++ " from './" ++ file ++
    "';\n\ndescribe('<" ++ name ++ " />', () => \x7b\n  it('renders', () => \x7b\n" ++
    "    expect(shallow(<" ++ name ++ " />).exists()).toBe(true);\n  \x7d);\n\x7d);\n  ",
    ?_, ?_, ?_, ?_, ?_⟩
  · apply String.ext
    simp [String.data_append]
  · apply String.ext
    simp [String.data_append]
  · refine occursIn_of_eq "import \x7b shallow \x7d from 'enzyme';\n\n"
      ("\n\ndescribe('<" ++ name ++ " />', () => \x7b\n  it('renders', () => \x7b\n" ++
        "    expect(shallow(<" ++ name ++ " />).exists()).toBe(true);\n  \x7d);\n\x7d);\n  ") ?_
    apply String.ext
    simp [String.data_append]
  · refine occursIn_of_eq
      ("import \x7b shallow \x7d from 'enzyme';\n\nimport " ++ name ++ " from './" ++ file ++
        "';\n\n")
      (", () => \x7b\n  it('renders', () => \x7b\n" ++
        "    expect(shallow(<" ++ name ++ " />).exists()).toBe(true);\n  \x7d);\n\x7d);\n  ") ?_
    apply String.ext
    simp [String.data_append]
  · refine occursIn_of_eq
      ("import \x7b shallow \x7d from 'enzyme';\n\nimport " ++ name ++ " from './" ++ file ++
        "';\n\ndescribe('<" ++ name ++ " />', () => \x7b\n  it('renders', () => \x7b\n    ")
      ";\n  \x7d);\n\x7d);\n  " ?_
    apply String.ext
    simp [String.data_append]

/-! ## createReactComponentStories -/

/-- C6: in the stories file the title of `storiesOf('…', module)` and of
`.add('…', …)` is `capitalizeFirstLetter(name)`, and the imported symbol and the
rendered JSX tag are the normalized identifier of the name, for every name,
every string helper and both values of each flag. -/
theorem createReactComponentStories_title_and_symbol (sh : StringHelper)
    (componentName : String) (upperCase isTypeScript : Bool) :
    ∃ front back : String,
      createReactComponentStories sh componentName upperCase isTypeScript =
        front ++
        "import " ++ sh.componentNameWithoutSpecialCharacter componentName ++
          " from './" ++ componentName ++ "';\n" ++
        "\n" ++
        "storiesOf('" ++ sh.capitalizeFirstLetter componentName ++ "', module)\n" ++
        "  .add('" ++ sh.capitalizeFirstLetter componentName ++ "', () => (\n" ++
        "    <React.Fragment>\n" ++
        "      <" ++ sh.componentNameWithoutSpecialCharacter componentName ++ "  />" ++
        back := by
  refine ⟨"\nimport " ++ (if isTypeScript = true then "* as" else "") ++
    " React from 'react';\nimport \x7b storiesOf \x7d from '@storybook/react'\n\n",
    "\n    </React.Fragment>\n  ))\n", ?_⟩
  apply String.ext
  simp [createReactComponentStories, String.data_append]

/-! ## The end of a generated text -/

/-- C7, as stated, fails: the index file for `button` does not end with a line
break. -/
theorem createIndex_not_newline_terminated_counterexample :
    lastChar (createIndex stringHelper "button" true) ≠ some '\n' := by
  decide

/-- C7, amended: for every input, the texts of `createReactComponent`,
`createReactFunctionalComponent`, `createTypeScriptReactComponent`,
`createReactComponentWithProps`, `createReactFunctionalComponentWithProps` and
`createReactComponentStories` end with a line break; the texts of the three
React Native generators and of `createTest` end with a line break followed by
two spaces; `createIndex` ends with `;` and `createIndexForFolders` with the
closing brace. -/
theorem generated_text_endings (sh : StringHelper) (componentName : String)
    (upperCase isTypeScript : Bool) (folders : List String) :
    lastChar (createReactComponent sh componentName) = some '\n' ∧
    lastChar (createReactFunctionalComponent sh componentName) = some '\n' ∧
    lastChar (createTypeScriptReactComponent sh componentName) = some '\n' ∧
    lastChar (createReactComponentWithProps sh componentName) = some '\n' ∧
    lastChar (createReactFunctionalComponentWithProps sh componentName) = some '\n' ∧
    lastChar (createReactComponentStories sh componentName upperCase isTypeScript)
      = some '\n' ∧
    endsWith "\n  " (createReactNativeComponent sh componentName) ∧
    endsWith "\n  " (createTypeScriptReactNativeComponent sh componentName) ∧
    endsWith "\n  " (createReactNativeComponentWithProps sh componentName) ∧
    endsWith "\n  " (createTest sh componentName upperCase isTypeScript) ∧
    lastChar (createIndex sh componentName upperCase) = some ';' ∧
    lastChar (createIndexForFolders folders) = some '\x7d' := by
  refine ⟨?_, ?_, ?_, ?_, ?_, ?_, ?_, ?_, ?_, ?_, ?_, ?_⟩
  · exact lastChar_append _ _ _ (by decide)
  · exact lastChar_append _ _ _ (by decide)
  · exact lastChar_append _ _ _ (by decide)
  · exact lastChar_append _ _ _ (by decide)
  · exact lastChar_append _ _ _ (by decide)
  · exact lastChar_append _ _ _ (by decide)
  · exact endsWith_append_append _ _ _ (by decide)
  · exact endsWith_append_append _ _ _ (by decide)
  · exact endsWith_append_append _ _ _ (by decide)
  · exact endsWith_append_append _ _ _ (by decide)
  · exact lastChar_append _ _ _ (by decide)
  · exact lastChar_append _ _ _ (by decide)

/-! ## The identifier in the component templates -/

/-- The declaration and the export statement in the text of `createReactComponent`. -/
theorem createReactComponent_shape (sh : StringHelper) (componentName : String) :
    ∃ head mid tail : String,
      createReactComponent sh componentName =
        head ++
          ("class " ++ sh.componentNameWithoutSpecialCharacter componentName ++ " extends") ++
          mid ++
          ("export default " ++ sh.componentNameWithoutSpecialCharacter componentName ++ ";") ++
          tail := by
  simp only [createReactComponent]
  generalize sh.componentNameWithoutSpecialCharacter componentName = name
  refine ⟨"\nimport React, \x7b Component \x7d from 'react';\n\n",
    " Component \x7b\n  render() \x7b\n    return (\n" ++
    "      <React.Fragment>\n        " ++ name ++
    "\n      </React.Fragment>\n    );\n  \x7d\n\x7d\n\n",
    "\n", ?_⟩
  apply String.ext
  simp [String.data_append]

/-- The declaration and the export statement in the text of `createReactFunctionalComponent`. -/
theorem createReactFunctionalComponent_shape (sh : StringHelper) (componentName : String) :
    ∃ head mid tail : String,
      createReactFunctionalComponent sh componentName =
        head ++
          ("const " ++ sh.componentNameWithoutSpecialCharacter componentName ++ "= () =>") ++
          mid ++
          ("export default " ++ sh.componentNameWithoutSpecialCharacter componentName ++ ";") ++
          tail := by
  simp only [createReactFunctionalComponent]
  generalize sh.componentNameWithoutSpecialCharacter componentName = name
  refine ⟨"\nimport React from 'react';\n\n",
    " \x7b\n  return (\n    <React.Fragment>\n      " ++ name ++
    "\n    </React.Fragment>\n  );\n\x7d\n\n",
    "\n", ?_⟩
  apply String.ext
  simp [String.data_append]

/-- The declaration and the export statement in the text of `createReactNativeComponent`. -/
theorem createReactNativeComponent_shape (sh : StringHelper) (componentName : String) :
    ∃ head mid tail : String,
      createReactNativeComponent sh componentName =
        head ++
          ("class " ++ sh.componentNameWithoutSpecialCharacter componentName ++ " extends") ++
          mid ++
          ("export default " ++ sh.componentNameWithoutSpecialCharacter componentName ++ ";") ++
          tail := by
  simp only [createReactNativeComponent]
  generalize sh.componentNameWithoutSpecialCharacter componentName = name
  refine ⟨"\nimport React, \x7b Component \x7d from 'react';\n" ++
    "import \x7b View, Text \x7d from 'react-native';\n\n",
    " Component \x7b\n  render() \x7b\n    return (\n      <View>\n" ++
    "        <Text>\n          " ++ name ++
    "\n        </Text>\n      </View>\n    );\n  \x7d\n\x7d\n\n",
    "\n  ", ?_⟩
  apply String.ext
  simp [String.data_append]

/-- The declaration and the export statement in the text of `createTypeScriptReactNativeComponent`. -/
theorem createTypeScriptReactNativeComponent_shape (sh : StringHelper) (componentName : String) :
    ∃ head mid tail : String,
      createTypeScriptReactNativeComponent sh componentName =
        head ++
          ("class " ++ sh.componentNameWithoutSpecialCharacter componentName ++ " extends") ++
          mid ++
          ("export default " ++ sh.componentNameWithoutSpecialCharacter componentName ++ ";") ++
          tail := by
  simp only [createTypeScriptReactNativeComponent]
  generalize sh.componentNameWithoutSpecialCharacter componentName = name
  refine ⟨"\nimport * as React from 'react';\n" ++
    "import \x7b View, Text \x7d from 'react-native';\n\n",
    " React.Component<any, any>  \x7b\n  public render() \x7b\n" ++
    "    return (\n      <View>\n        <Text>\n          " ++ name ++
    "\n        </Text>\n      </View>\n    );\n  \x7d\n\x7d\n\n",
    "\n  ", ?_⟩
  apply String.ext
  simp [String.data_append]

/-- The declaration and the export statement in the text of `createTypeScriptReactComponent`. -/
theorem createTypeScriptReactComponent_shape (sh : StringHelper) (componentName : String) :
    ∃ head mid tail : String,
      createTypeScriptReactComponent sh componentName =
        head ++
          ("class " ++ sh.componentNameWithoutSpecialCharacter componentName ++ " extends") ++
          mid ++
          ("export default " ++ sh.componentNameWithoutSpecialCharacter componentName ++ ";") ++
          tail := by
  simp only [createTypeScriptReactComponent]
  generalize sh.componentNameWithoutSpecialCharacter componentName = name
  refine ⟨"\nimport * as React from 'react';\n\n",
    " React.Component<any, any>  \x7b\n  public render() \x7b\n" ++
    "    return (\n      <React.Fragment>\n        " ++ name ++
    "\n      </React.Fragment>\n    );\n  \x7d\n\x7d\n\n",
    "\n", ?_⟩
  apply String.ext
  simp [String.data_append]

/-- The declaration and the export statement in the text of `createReactComponentWithProps`. -/
theorem createReactComponentWithProps_shape (sh : StringHelper) (componentName : String) :
    ∃ head mid tail : String,
      createReactComponentWithProps sh componentName =
        head ++
          ("class " ++ sh.componentNameWithoutSpecialCharacter componentName ++ " extends") ++
          mid ++
          ("export default " ++ sh.componentNameWithoutSpecialCharacter componentName ++ ";") ++
          tail := by
  simp only [createReactComponentWithProps]
  generalize sh.componentNameWithoutSpecialCharacter componentName = name
  refine ⟨"\nimport React, \x7b PureComponent \x7d from 'react';\n" ++
    "import * as PropTypes from 'prop-types';\n\n",
    " PureComponent \x7b\n  static propTypes = \x7b\n" ++
    "    className: PropTypes.string,\n  \x7d;\n\n" ++
    "  static defaultProps = \x7b\n    className: '" ++ name ++
    "',\n  \x7d;\n\n  render() \x7b\n" ++
    "    const \x7b className \x7d = this.props;\n" ++
    "    return <span className=\x7bclassName\x7d>" ++ name ++
    "</span>;\n  \x7d\n\x7d\n\n",
    "\n", ?_⟩
  apply String.ext
  simp [String.data_append]

/-- The declaration and the export statement in the text of `createReactFunctionalComponentWithProps`. -/
theorem createReactFunctionalComponentWithProps_shape (sh : StringHelper) (componentName : String) :
    ∃ head mid tail : String,
      createReactFunctionalComponentWithProps sh componentName =
        head ++
          ("const " ++ sh.componentNameWithoutSpecialCharacter componentName ++ " = () =>") ++
          mid ++
          ("export default " ++ sh.componentNameWithoutSpecialCharacter componentName ++ ";") ++
          tail := by
  simp only [createReactFunctionalComponentWithProps]
  generalize sh.componentNameWithoutSpecialCharacter componentName = name
  refine ⟨"\nimport React from 'react';\n" ++ "import PropTypes from 'prop-types';\n\n",
    " \x7b\n  return (\n    <React.Fragment>\n      " ++ name ++
    "\n    </React.Fragment>\n  );\n\x7d\n\n" ++ name ++ ".propTypes = \x7b\x7d;\n\n",
    "\n", ?_⟩
  apply String.ext
  simp [String.data_append]

/-- The declaration and the export statement in the text of `createReactNativeComponentWithProps`. -/
theorem createReactNativeComponentWithProps_shape (sh : StringHelper) (componentName : String) :
    ∃ head mid tail : String,
      createReactNativeComponentWithProps sh componentName =
        head ++
          ("class " ++ sh.componentNameWithoutSpecialCharacter componentName ++ " extends") ++
          mid ++
          ("export default " ++ sh.componentNameWithoutSpecialCharacter componentName ++ ";") ++
          tail := by
  simp only [createReactNativeComponentWithProps]
  generalize sh.componentNameWithoutSpecialCharacter componentName = name
  refine ⟨"\nimport React, \x7b Component \x7d from 'react';\n" ++
    "import \x7b View, Text \x7d from 'react-native';\n" ++
    "import PropTypes from 'prop-types';\n\n",
    " Component \x7b\n  render() \x7b\n    return (\n      <View>\n" ++
    "        <Text>" ++ name ++ "</Text>\n      </View>\n    );\n  \x7d\n\x7d\n\n" ++
    name ++ ".propTypes = \x7b\n\n\x7d;\n\n",
    "\n  ", ?_⟩
  apply String.ext
  simp [String.data_append]

/-- C9: for every name and every string helper, the text of each of the eight
component generators holds the normalized identifier `N` of the name in its
declaration (`class N extends` in the six class templates, `const N= () =>` in
`createReactFunctionalComponent`, `const N = () =>` in
`createReactFunctionalComponentWithProps`) and, further on, in the statement
`export default N;`. -/
theorem component_declares_and_exports_identifier (sh : StringHelper)
    (componentName : String) :
    (∃ head mid tail : String,
      createReactComponent sh componentName =
        head ++
          ("class " ++ sh.componentNameWithoutSpecialCharacter componentName ++ " extends") ++
          mid ++
          ("export default " ++ sh.componentNameWithoutSpecialCharacter componentName ++ ";") ++
          tail) ∧
    (∃ head mid tail : String,
      createReactFunctionalComponent sh componentName =
        head ++
          ("const " ++ sh.componentNameWithoutSpecialCharacter componentName ++ "= () =>") ++
          mid ++
          ("export default " ++ sh.componentNameWithoutSpecialCharacter componentName ++ ";") ++
          tail) ∧
    (∃ head mid tail : String,
      createReactNativeComponent sh componentName =
        head ++
          ("class " ++ sh.componentNameWithoutSpecialCharacter componentName ++ " extends") ++
          mid ++
          ("export default " ++ sh.componentNameWithoutSpecialCharacter componentName ++ ";") ++
          tail) ∧
    (∃ head mid tail : String,
      createTypeScriptReactNativeComponent sh componentName =
        head ++
          ("class " ++ sh.componentNameWithoutSpecialCharacter componentName ++ " extends") ++
          mid ++
          ("export default " ++ sh.componentNameWithoutSpecialCharacter componentName ++ ";") ++
          tail) ∧
    (∃ head mid tail : String,
      createTypeScriptReactComponent sh componentName =
        head ++
          ("class " ++ sh.componentNameWithoutSpecialCharacter componentName ++ " extends") ++
          mid ++
          ("export default " ++ sh.componentNameWithoutSpecialCharacter componentName ++ ";") ++
          tail) ∧
    (∃ head mid tail : String,
      createReactComponentWithProps sh componentName =
        head ++
          ("class " ++ sh.componentNameWithoutSpecialCharacter componentName ++ " extends") ++
          mid ++
          ("export default " ++ sh.componentNameWithoutSpecialCharacter componentName ++ ";") ++
          tail) ∧
    (∃ head mid tail : String,
      createReactFunctionalComponentWithProps sh componentName =
        head ++
          ("const " ++ sh.componentNameWithoutSpecialCharacter componentName ++ " = () =>") ++
          mid ++
          ("export default " ++ sh.componentNameWithoutSpecialCharacter componentName ++ ";") ++
          tail) ∧
    (∃ head mid tail : String,
      createReactNativeComponentWithProps sh componentName =
        head ++
          ("class " ++ sh.componentNameWithoutSpecialCharacter componentName ++ " extends") ++
          mid ++
          ("export default " ++ sh.componentNameWithoutSpecialCharacter componentName ++ ";") ++
          tail) :=
  ⟨createReactComponent_shape sh componentName,
    createReactFunctionalComponent_shape sh componentName,
    createReactNativeComponent_shape sh componentName,
    createTypeScriptReactNativeComponent_shape sh componentName,
    createTypeScriptReactComponent_shape sh componentName,
    createReactComponentWithProps_shape sh componentName,
    createReactFunctionalComponentWithProps_shape sh componentName,
    createReactNativeComponentWithProps_shape sh componentName⟩

/-! ## The component templates and the configuration space -/

/-- Every exported component generator returns a text with the statement
`export default N;`, `N` being the normalized identifier of the name. -/
theorem render_exports_identifier (sh : StringHelper) (g : ComponentGenerator)
    (componentName : String) :
    occursIn ("export default " ++ sh.componentNameWithoutSpecialCharacter componentName ++ ";")
      (g.render sh componentName) := by
  cases g
  · obtain ⟨head, mid, tail, h⟩ := createReactComponent_shape sh componentName
    exact occursIn_of_eq _ tail h
  · obtain ⟨head, mid, tail, h⟩ := createReactFunctionalComponent_shape sh componentName
    exact occursIn_of_eq _ tail h
  · obtain ⟨head, mid, tail, h⟩ := createReactNativeComponent_shape sh componentName
    exact occursIn_of_eq _ tail h
  · obtain ⟨head, mid, tail, h⟩ := createTypeScriptReactComponent_shape sh componentName
    exact occursIn_of_eq _ tail h
  · obtain ⟨head, mid, tail, h⟩ := createTypeScriptReactNativeComponent_shape sh componentName
    exact occursIn_of_eq _ tail h
  · obtain ⟨head, mid, tail, h⟩ := createReactComponentWithProps_shape sh componentName
    exact occursIn_of_eq _ tail h
  · obtain ⟨head, mid, tail, h⟩ :=
      createReactFunctionalComponentWithProps_shape sh componentName
    exact occursIn_of_eq _ tail h
  · obtain ⟨head, mid, tail, h⟩ := createReactNativeComponentWithProps_shape sh componentName
    exact occursIn_of_eq _ tail h

/-- The modelled selector picks a generator only under the combination given to
that generator. -/
theorem selectComponentTemplate_ok {v : Variant} {g : ComponentGenerator}
    (h : selectComponentTemplate v = .ok g) : g.variant = v := by
  unfold selectComponentTemplate at h
  split at h
  · rename_i g0 hg0
    have hmem : g0 ∈ templatesFor v := by rw [hg0]; exact List.mem_singleton.mpr rfl
    have hv : g0.variant = v := of_decide_eq_true (List.mem_filter.mp hmem).2
    cases h
    exact hv
  · cases h

/-- A text rendered for a combination is the text of a generator given to that
combination. -/
theorem renderComponent_ok {sh : StringHelper} {v : Variant} {componentName text : String}
    (h : renderComponent sh v componentName = .ok text) :
    ∃ g : ComponentGenerator, g.variant = v ∧ text = g.render sh componentName := by
  unfold renderComponent at h
  split at h
  · rename_i g hg
    cases h
    exact ⟨g, selectComponentTemplate_ok hg, rfl⟩
  · cases h

/-- C8, as stated, fails on the selector modelled from the spec: componentData.js
exports no template for a functional React Native component in plain
JavaScript without props, so that combination matches none of the exported
generators and rendering it ends in `UnsupportedVariant`. -/
theorem renderComponent_native_functional_counterexample :
    templatesFor ⟨.native, .functional, .plain, false⟩ = [] ∧
      renderComponent stringHelper ⟨.native, .functional, .plain, false⟩ "button" =
        .error .unsupportedVariant := by
  constructor
  · decide
  · rfl

/-- C8, amended, on the selector modelled from the spec: no combination of
framework, style, language and withProps matches more than one exported
component template; rendering a combination succeeds if and only if it is one
of the eight listed, and ends in `UnsupportedVariant` for the other eight; a
text that is rendered comes from a generator of that combination and exports
the normalized identifier. -/
theorem renderComponent_succeeds_iff (sh : StringHelper) (v : Variant)
    (componentName : String) :
    (templatesFor v).length ≤ 1 ∧
    ((∃ text, renderComponent sh v componentName = .ok text) ↔
      v ∈ [(⟨.web, .classBased, .plain, false⟩ : Variant),
        ⟨.web, .functional, .plain, false⟩,
        ⟨.native, .classBased, .plain, false⟩,
        ⟨.web, .classBased, .typescript, false⟩,
        ⟨.native, .classBased, .typescript, false⟩,
        ⟨.web, .classBased, .plain, true⟩,
        ⟨.web, .functional, .plain, true⟩,
        ⟨.native, .classBased, .plain, true⟩]) ∧
    ((¬ ∃ text, renderComponent sh v componentName = .ok text) ↔
      renderComponent sh v componentName = .error .unsupportedVariant) ∧
    (∀ text, renderComponent sh v componentName = .ok text →
      (∃ g : ComponentGenerator, g.variant = v ∧ text = g.render sh componentName) ∧
      occursIn
        ("export default " ++ sh.componentNameWithoutSpecialCharacter componentName ++ ";")
        text) := by
  refine ⟨?_, ?_, ?_, ?_⟩
  · rcases v with ⟨_ | _, _ | _, _ | _, _ | _⟩ <;> decide
  · rcases v with ⟨_ | _, _ | _, _ | _, _ | _⟩ <;>
      simp [renderComponent, selectComponentTemplate, templatesFor, componentGenerators,
        ComponentGenerator.variant]
  · rcases v with ⟨_ | _, _ | _, _ | _, _ | _⟩ <;>
      simp [renderComponent, selectComponentTemplate, templatesFor, componentGenerators,
        ComponentGenerator.variant]
  · intro text htext
    obtain ⟨g, hg, rfl⟩ := renderComponent_ok htext
    exact ⟨⟨g, hg, rfl⟩, render_exports_identifier sh g componentName⟩

/-! ## TypeScript against plain class templates -/

/-- C10, as stated, fails: for `button`, `createReactComponent` is the class
template filled with `import React, { Component }`, `Component` and no
modifier, but `createTypeScriptReactComponent` is not that template filled with
`import * as React`, `React.Component<any, any>` and `public`. -/
theorem createTypeScriptReactComponent_rewrite_counterexample :
    createReactComponent stringHelper "button" =
        webClassComponentWith "import React, \x7b Component \x7d" "Component" "" "Button" ∧
      createTypeScriptReactComponent stringHelper "button" ≠
        webClassComponentWith "import * as React" "React.Component<any, any>" "public "
          "Button" := by
  decide

/-- C10, amended: for every name and every string helper, the plain and the
TypeScript class template of one framework are the same text but for three
places: the React import clause (`import React, { Component }` against
`import * as React`), the class heritage (`Component` against
`React.Component<any, any>` followed by one more space) and the modifier of
render (none against `public`); the JSX body and the export statement are the
same text. -/
theorem typescript_class_templates_differ_in_three_places (sh : StringHelper)
    (componentName : String) :
    createReactComponent sh componentName =
        webClassComponentWith "import React, \x7b Component \x7d" "Component" ""
          (sh.componentNameWithoutSpecialCharacter componentName) ∧
      createTypeScriptReactComponent sh componentName =
        webClassComponentWith "import * as React" "React.Component<any, any> " "public "
          (sh.componentNameWithoutSpecialCharacter componentName) ∧
      createReactNativeComponent sh componentName =
        nativeClassComponentWith "import React, \x7b Component \x7d" "Component" ""
          (sh.componentNameWithoutSpecialCharacter componentName) ∧
      createTypeScriptReactNativeComponent sh componentName =
        nativeClassComponentWith "import * as React" "React.Component<any, any> " "public "
          (sh.componentNameWithoutSpecialCharacter componentName) := by
  refine ⟨?_, ?_, ?_, ?_⟩
  · apply String.ext
    simp [createReactComponent, webClassComponentWith, String.data_append]
  · apply String.ext
    simp [createTypeScriptReactComponent, webClassComponentWith, String.data_append]
  · apply String.ext
    simp [createReactNativeComponent, nativeClassComponentWith, String.data_append]
  · apply String.ext
    simp [createTypeScriptReactNativeComponent, nativeClassComponentWith,
      String.data_append]

/-! ## The identifier normalizer -/

/-- A character outside `a`..`z` is its own uppercase. -/
theorem toUpper_of_not_lower (c : Char) (h : ¬ (c.toNat ≥ 97 ∧ c.toNat ≤ 122)) :
    c.toUpper = c := by
  unfold Char.toUpper
  simp only [h, if_false]

/-- The uppercase of a character in `a`..`z` is an identifier character and is
its own uppercase. -/
theorem toUpper_of_lower (c : Char) (h : c.toNat ≥ 97 ∧ c.toNat ≤ 122) :
    isIdentifierChar c.toUpper = true ∧ c.toUpper.toUpper = c.toUpper := by
  obtain ⟨n, hn⟩ : ∃ n, c.toNat = n := ⟨_, rfl⟩
  have hc : c = Char.ofNat n := by rw [← hn, Char.ofNat_toNat]
  rw [hn] at h
  obtain ⟨h1, h2⟩ := h
  subst hc
  interval_cases n <;> decide

/-- Uppercasing keeps an identifier character an identifier character. -/
theorem isIdentifierChar_toUpper (c : Char) (h : isIdentifierChar c = true) :
    isIdentifierChar c.toUpper = true := by
  by_cases hl : c.toNat ≥ 97 ∧ c.toNat ≤ 122
  · exact (toUpper_of_lower c hl).1
  · rw [toUpper_of_not_lower c hl]
    exact h

/-- Uppercasing twice is uppercasing once. -/
theorem toUpper_toUpper (c : Char) : c.toUpper.toUpper = c.toUpper := by
  by_cases hl : c.toNat ≥ 97 ∧ c.toNat ≤ 122
  · exact (toUpper_of_lower c hl).2
  · rw [toUpper_of_not_lower c hl, toUpper_of_not_lower c hl]

/-- Inside a word the normalizer leaves its own output as it is. -/
theorem normalizeChars_false_normalizeChars :
    ∀ (atStart : Bool) (cs : List Char),
      normalizeChars false (normalizeChars atStart cs) = normalizeChars atStart cs
  | _, [] => rfl
  | atStart, c :: cs => by
    by_cases hc : isIdentifierChar c = true
    · have hkept : isIdentifierChar (if atStart = true then c.toUpper else c) = true := by
        cases atStart
        · simpa using hc
        · simpa using isIdentifierChar_toUpper c hc
      simp only [normalizeChars, hc, if_true]
      rw [if_pos hkept, normalizeChars_false_normalizeChars false cs]
      simp
    · simp only [normalizeChars, hc]
      exact normalizeChars_false_normalizeChars true cs

/-- At the start of a name the normalizer leaves its own output as it is. -/
theorem normalizeChars_true_normalizeChars :
    ∀ cs : List Char,
      normalizeChars true (normalizeChars true cs) = normalizeChars true cs
  | [] => rfl
  | c :: cs => by
    by_cases hc : isIdentifierChar c = true
    · simp only [normalizeChars, hc, if_true]
      rw [if_pos (isIdentifierChar_toUpper c hc), toUpper_toUpper,
        normalizeChars_false_normalizeChars false cs]
    · simp only [normalizeChars, hc]
      exact normalizeChars_true_normalizeChars cs

/-- C11: the identifier normalizer, as the specification describes it, is
idempotent: normalizing the normalized form of any string gives the normalized
form again. -/
theorem componentNameWithoutSpecialCharacter_idempotent (x : String) :
    stringHelper.componentNameWithoutSpecialCharacter
        (stringHelper.componentNameWithoutSpecialCharacter x) =
      stringHelper.componentNameWithoutSpecialCharacter x := by
  show String.mk (normalizeChars true (String.mk (normalizeChars true x.data)).data) =
    String.mk (normalizeChars true x.data)
  rw [normalizeChars_true_normalizeChars]

/-- C12: for `my-widget` the normalizer of the specification gives `MyWidget` and
the display transform gives `My-widget`; so, for both values of each flag, the
stories file for `my-widget` has the title `My-widget` in `storiesOf` and in
`.add`, imports the symbol `MyWidget` and renders the tag `MyWidget`. -/
theorem my_widget_capitalization_split (upperCase isTypeScript : Bool) :
    stringHelper.componentNameWithoutSpecialCharacter "my-widget" = "MyWidget" ∧
    stringHelper.capitalizeFirstLetter "my-widget" = "My-widget" ∧
    occursIn "storiesOf('My-widget', module)"
      (createReactComponentStories stringHelper "my-widget" upperCase isTypeScript) ∧
    occursIn ".add('My-widget', "
      (createReactComponentStories stringHelper "my-widget" upperCase isTypeScript) ∧
    occursIn "import MyWidget from "
      (createReactComponentStories stringHelper "my-widget" upperCase isTypeScript) ∧
    occursIn "<MyWidget  />"
      (createReactComponentStories stringHelper "my-widget" upperCase isTypeScript) := by
  cases upperCase <;> cases isTypeScript <;> decide

/-! ## The upperCase parameter of createReactComponentStories -/

/-- C13: `createReactComponentStories` does not read its `upperCase` parameter: for
every string helper, name and `isTypeScript` the text for `upperCase = true` is
the text for `upperCase = false`.  For `button` with `upperCase = true` the
stories file imports from `./button`, and `./Button` does not occur in it,
while `createTest` and `createIndex` refer to `./Button`. -/
theorem createReactComponentStories_ignores_upperCase :
    (∀ (sh : StringHelper) (componentName : String) (isTypeScript : Bool),
        createReactComponentStories sh componentName true isTypeScript =
          createReactComponentStories sh componentName false isTypeScript) ∧
      occursIn "import Button from './button';"
        (createReactComponentStories stringHelper "button" true false) ∧
      ¬ occursIn "./Button" (createReactComponentStories stringHelper "button" true false) ∧
      occursIn "import Button from './Button';" (createTest stringHelper "button" true false) ∧
      createIndex stringHelper "button" true = "export \x7b default \x7d from './Button';" := by
  refine ⟨fun _ _ _ => rfl, ?_, ?_, ?_, ?_⟩ <;> decide

/-! ## Names with the same normalized identifier -/

/-- C14: for every string helper and all names `a` and `b` with the same
normalized identifier, each of the eight component generators returns the same
text for `a` and for `b`, `createIndex(a, true)` is `createIndex(b, true)`, and
`createTest(a, true, ts)` is `createTest(b, true, ts)` for both values of `ts`. -/
theorem same_identifier_same_text (sh : StringHelper) (a b : String)
    (h : sh.componentNameWithoutSpecialCharacter a =
      sh.componentNameWithoutSpecialCharacter b) :
    createReactComponent sh a = createReactComponent sh b ∧
    createReactFunctionalComponent sh a = createReactFunctionalComponent sh b ∧
    createReactNativeComponent sh a = createReactNativeComponent sh b ∧
    createTypeScriptReactNativeComponent sh a = createTypeScriptReactNativeComponent sh b ∧
    createTypeScriptReactComponent sh a = createTypeScriptReactComponent sh b ∧
    createReactComponentWithProps sh a = createReactComponentWithProps sh b ∧
    createReactFunctionalComponentWithProps sh a =
      createReactFunctionalComponentWithProps sh b ∧
    createReactNativeComponentWithProps sh a = createReactNativeComponentWithProps sh b ∧
    createIndex sh a true = createIndex sh b true ∧
    (∀ isTypeScript : Bool,
      createTest sh a true isTypeScript = createTest sh b true isTypeScript) := by
  refine ⟨?_, ?_, ?_, ?_, ?_, ?_, ?_, ?_, ?_, fun isTypeScript => ?_⟩
  · simp only [createReactComponent, h]
  · simp only [createReactFunctionalComponent, h]
  · simp only [createReactNativeComponent, h]
  · simp only [createTypeScriptReactNativeComponent, h]
  · simp only [createTypeScriptReactComponent, h]
  · simp only [createReactComponentWithProps, h]
  · simp only [createReactFunctionalComponentWithProps, h]
  · simp only [createReactNativeComponentWithProps, h]
  · simp only [createIndex, h, if_true]
  · simp only [createTest, h, if_true]

/-- C14 at the names `my-widget` and `my widget`, which the normalizer of the
specification both turns into `MyWidget`. -/
theorem same_identifier_same_text_witness :
    stringHelper.componentNameWithoutSpecialCharacter "my-widget" =
        stringHelper.componentNameWithoutSpecialCharacter "my widget" ∧
      (createReactComponent stringHelper "my-widget" =
          createReactComponent stringHelper "my widget" ∧
        createReactFunctionalComponent stringHelper "my-widget" =
          createReactFunctionalComponent stringHelper "my widget" ∧
        createReactNativeComponent stringHelper "my-widget" =
          createReactNativeComponent stringHelper "my widget" ∧
        createTypeScriptReactNativeComponent stringHelper "my-widget" =
          createTypeScriptReactNativeComponent stringHelper "my widget" ∧
        createTypeScriptReactComponent stringHelper "my-widget" =
          createTypeScriptReactComponent stringHelper "my widget" ∧
        createReactComponentWithProps stringHelper "my-widget" =
          createReactComponentWithProps stringHelper "my widget" ∧
        createReactFunctionalComponentWithProps stringHelper "my-widget" =
          createReactFunctionalComponentWithProps stringHelper "my widget" ∧
        createReactNativeComponentWithProps stringHelper "my-widget" =
          createReactNativeComponentWithProps stringHelper "my widget" ∧
        createIndex stringHelper "my-widget" true = createIndex stringHelper "my widget" true ∧
        (∀ isTypeScript : Bool,
          createTest stringHelper "my-widget" true isTypeScript =
            createTest stringHelper "my widget" true isTypeScript)) :=
  ⟨by decide, same_identifier_same_text stringHelper "my-widget" "my widget" (by decide)⟩

/-! ## createIndexForFolders on short lists -/

/-- C15, as stated, fails: the folder name is written into the export block as it
is, so for the one-element list with the name `a,b` the export block has a
comma. -/
theorem createIndexForFolders_single_comma_counterexample :
    createIndexForFolders ["a,b"] =
        "import a,b from './a,b' \n" ++ "export \x7b\n    a,b\n\x7d" ∧
      occursIn "," "export \x7b\n    a,b\n\x7d" := by
  decide

/-- C15, amended: for the empty folder list `createIndexForFolders` returns
`export {`, a line break, four spaces, a line break and the closing brace: no
statement importing anything, no name and no comma.  For a one-element list it
returns the import of the name and an export block with the name alone between
`export {` and the closing brace, so the block has no comma other than those of
the name itself. -/
theorem createIndexForFolders_empty_and_single (folderName : String) :
    createIndexForFolders [] = "export \x7b\n    \n\x7d" ∧
    ¬ occursIn "import" (createIndexForFolders []) ∧
    ¬ occursIn "," (createIndexForFolders []) ∧
    createIndexForFolders [folderName] =
      "import " ++ folderName ++ " from './" ++ folderName ++ "' \n" ++
        ("export \x7b\n    " ++ folderName ++ "\n\x7d") ∧
    (',' ∈ ("export \x7b\n    " ++ folderName ++ "\n\x7d").data ↔ ',' ∈ folderName.data) := by
  refine ⟨by decide, by decide, by decide, ?_, ?_⟩
  · rw [createIndexForFolders_eq]
    apply String.ext
    simp [folderImport, join_cons, join_nil, intercalate_singleton, String.data_append]
  · simp [String.data_append]

end ComponentData
